import Mathlib

/-!
Verification development for the voice-based travel assistant repository.

The embedding models, from the source under src/:
  * base64 byte-level encode/decode as used for the Twilio media payloads,
  * the 2048-byte chunking loop of ConversationManager.handle_response
    (main.py lines 103-123),
  * the whole of ConversationManager.handle_response as a function from an
    environment of external outcomes to a trace of actions, the resulting
    is_speaking flag and the way the call returned (main.py lines 38-142),
  * the websocket_endpoint receive loop (main.py lines 181-199),
  * the pydub conversion step (main.py lines 83-94), and
  * the weather tool of vapi_agent.py with its webhook dispatch.

Bytes are Nat values below 256; python byte strings are List Nat; the
asynchronous environment (API failures, send failures, task cancellation)
is passed in explicitly as data.
-/

/-- Byte value of the base64 alphabet character at index i (0..63),
mirroring the standard alphabet used by python base64.b64encode. -/
def ec (i : Nat) : Nat :=
  if i < 26 then 65 + i
  else if i < 52 then 71 + i
  else if i < 62 then i - 4
  else if i = 62 then 43
  else 47

/-- Index of a base64 alphabet character, inverse of ec on 0..63. -/
def dc (c : Nat) : Nat :=
  if 65 ≤ c ∧ c ≤ 90 then c - 65
  else if 97 ≤ c ∧ c ≤ 122 then c - 71
  else if 48 ≤ c ∧ c ≤ 57 then c + 4
  else if c = 43 then 62
  else 63

/-- python base64.b64encode on a byte string, producing the byte values of
the ASCII output characters (61 is the padding character). -/
def b64encode : List Nat → List Nat
  | [] => []
  | [a] => [ec (a / 4), ec (a % 4 * 16), 61, 61]
  | [a, b] => [ec (a / 4), ec (a % 4 * 16 + b / 16), ec (b % 16 * 4), 61]
  | a :: b :: c :: rest =>
      ec (a / 4) :: ec (a % 4 * 16 + b / 16) :: ec (b % 16 * 4 + c / 64) ::
        ec (c % 64) :: b64encode rest

/-- python base64.b64decode on well-formed input as produced by b64encode. -/
def b64decode : List Nat → List Nat
  | c1 :: c2 :: c3 :: c4 :: rest =>
      if c3 = 61 then [dc c1 * 4 + dc c2 / 16]
      else if c4 = 61 then [dc c1 * 4 + dc c2 / 16, dc c2 % 16 * 16 + dc c3 / 4]
      else (dc c1 * 4 + dc c2 / 16) :: (dc c2 % 16 * 16 + dc c3 / 4) ::
        (dc c3 % 4 * 64 + dc c4) :: b64decode rest
  | _ => []

/-- chunk_size = 2048 from main.py line 104. -/
def chunk_size : Nat := 2048

/-- The chunk slices produced by the loop
for i in range(0, len(output_bytes), chunk_size): output_bytes[i:i+chunk_size]
of main.py lines 107-109; chunk i is the slice starting at 2048*i. -/
def chunks (output_bytes : List Nat) : List (List Nat) :=
  (List.range ((output_bytes.length + chunk_size - 1) / chunk_size)).map
    (fun i => (output_bytes.drop (chunk_size * i)).take chunk_size)

theorem dc_ec_all : ∀ i, i < 64 → dc (ec i) = i := by decide

theorem ec_ne_pad : ∀ i, i < 64 → ec i ≠ 61 := by decide

theorem b64_roundtrip : ∀ l : List Nat, (∀ b ∈ l, b < 256) → b64decode (b64encode l) = l
  | [], _ => rfl
  | [a], h => by
      have ha : a < 256 := h a (by simp)
      simp only [b64encode, b64decode, if_pos rfl]
      have e1 : dc (ec (a / 4)) = a / 4 := dc_ec_all _ (by omega)
      have e2 : dc (ec (a % 4 * 16)) = a % 4 * 16 := dc_ec_all _ (by omega)
      rw [e1, e2]
      have hx : a / 4 * 4 + a % 4 * 16 / 16 = a := by omega
      rw [hx, if_true]
  | [a, b], h => by
      have ha : a < 256 := h a (by simp)
      have hb : b < 256 := h b (by simp)
      simp only [b64encode, b64decode]
      rw [if_neg (ec_ne_pad _ (by omega)), if_true]
      have e1 : dc (ec (a / 4)) = a / 4 := dc_ec_all _ (by omega)
      have e2 : dc (ec (a % 4 * 16 + b / 16)) = a % 4 * 16 + b / 16 := dc_ec_all _ (by omega)
      have e3 : dc (ec (b % 16 * 4)) = b % 16 * 4 := dc_ec_all _ (by omega)
      rw [e1, e2, e3]
      have h1 : a / 4 * 4 + (a % 4 * 16 + b / 16) / 16 = a := by omega
      have h2 : (a % 4 * 16 + b / 16) % 16 * 16 + b % 16 * 4 / 4 = b := by omega
      rw [h1, h2]
  | a :: b :: c :: rest, h => by
      have ha : a < 256 := h a (by simp)
      have hb : b < 256 := h b (by simp)
      have hc : c < 256 := h c (by simp)
      have ih := b64_roundtrip rest (fun x hx => h x (by simp [hx]))
      simp only [b64encode, b64decode]
      rw [if_neg (ec_ne_pad _ (by omega)), if_neg (ec_ne_pad _ (by omega))]
      have e1 : dc (ec (a / 4)) = a / 4 := dc_ec_all _ (by omega)
      have e2 : dc (ec (a % 4 * 16 + b / 16)) = a % 4 * 16 + b / 16 := dc_ec_all _ (by omega)
      have e3 : dc (ec (b % 16 * 4 + c / 64)) = b % 16 * 4 + c / 64 := dc_ec_all _ (by omega)
      have e4 : dc (ec (c % 64)) = c % 64 := dc_ec_all _ (by omega)
      rw [e1, e2, e3, e4, ih]
      have h1 : a / 4 * 4 + (a % 4 * 16 + b / 16) / 16 = a := by omega
      have h2 : (a % 4 * 16 + b / 16) % 16 * 16 + (b % 16 * 4 + c / 64) / 4 = b := by omega
      have h3 : (b % 16 * 4 + c / 64) % 4 * 64 + c % 64 = c := by omega
      rw [h1, h2, h3]

/-- Helper: a pointwise-identity map leaves a list unchanged. -/
theorem map_id_of {α : Type} (l : List α) (f : α → α) (h : ∀ a ∈ l, f a = a) :
    l.map f = l := by
  induction l with
  | nil => rfl
  | cons a t ih =>
      simp only [List.map_cons, h a (by simp)]
      rw [ih (fun x hx => h x (by simp [hx]))]

/-- Joining the slice decomposition recovers the buffer, for any slice count
large enough to cover the whole buffer. -/
theorem slices_join : ∀ (n : Nat) (buf : List Nat), buf.length ≤ chunk_size * n →
    ((List.range n).map (fun i => (buf.drop (chunk_size * i)).take chunk_size)).join = buf := by
  intro n
  induction n with
  | zero =>
      intro buf h
      have : buf = [] := by
        cases buf with
        | nil => rfl
        | cons a t => simp [chunk_size] at h
      simp [this]
  | succ n ih =>
      intro buf h
      rw [List.range_succ_eq_map]
      simp only [List.map_cons, List.map_map]
      have hhead : (buf.drop (chunk_size * 0)).take chunk_size = buf.take chunk_size := by
        simp
      have hfun : ∀ i ∈ List.range n,
          ((fun i => (buf.drop (chunk_size * i)).take chunk_size) ∘ Nat.succ) i
            = ((buf.drop chunk_size).drop (chunk_size * i)).take chunk_size := by
        intro i _
        simp only [Function.comp]
        rw [List.drop_drop]
        have hc : chunk_size * (i + 1) = chunk_size + chunk_size * i := by ring
        rw [hc]
      rw [List.map_congr_left hfun]
      have htail : ((List.range n).map
          (fun i => ((buf.drop chunk_size).drop (chunk_size * i)).take chunk_size)).join
            = buf.drop chunk_size := by
        apply ih
        simp only [List.length_drop]
        simp only [chunk_size] at h ⊢
        omega
      simp only [List.join_cons, hhead, htail, List.take_append_drop]

/-- The number of chunks is the ceiling of length / chunk_size, exactly the
total_chunks computed on main.py line 105. -/
theorem chunks_length (buf : List Nat) :
    (chunks buf).length = (buf.length + chunk_size - 1) / chunk_size := by
  simp [chunks]

/-- Concatenating the chunks in order gives back the buffer. -/
theorem chunks_join (buf : List Nat) : (chunks buf).join = buf := by
  apply slices_join
  simp only [chunk_size]
  omega

/-- Every chunk has at most chunk_size bytes. -/
theorem chunks_le (buf : List Nat) : ∀ f ∈ chunks buf, f.length ≤ chunk_size := by
  intro f hf
  rcases List.mem_map.mp hf with ⟨i, _, rfl⟩
  simp [List.length_take]

/-- Every chunk except possibly the last has exactly chunk_size bytes. -/
theorem chunks_full (buf : List Nat) :
    ∀ i, i + 1 < (chunks buf).length → ((chunks buf).getD i []).length = chunk_size := by
  intro i hi
  have hlen : (chunks buf).length = (buf.length + chunk_size - 1) / chunk_size :=
    chunks_length buf
  have hi2 : i < (chunks buf).length := by omega
  rw [List.getD_eq_getElem _ _ hi2]
  simp only [chunks, List.getElem_map, List.getElem_range, List.length_take,
    List.length_drop]
  rw [hlen] at hi
  simp only [chunk_size] at hi ⊢
  omega

/-- Every byte of a chunk is a byte of the buffer. -/
theorem chunks_mem (buf : List Nat) (f : List Nat) (hf : f ∈ chunks buf) :
    ∀ b ∈ f, b ∈ buf := by
  rcases List.mem_map.mp hf with ⟨i, _, rfl⟩
  intro b hb
  exact List.drop_subset _ _ (List.take_subset _ _ hb)

/-- Outbound JSON messages sent on the Twilio websocket by handle_response:
a media message carries {streamSid, media:{payload: base64 chars}}
(main.py lines 114-120), a mark message carries {streamSid, mark:{name}}
(main.py lines 131-135). -/
inductive OutMsg where
  | media (streamSid : String) (payload : List Nat)
  | mark (streamSid : String) (name : String)
deriving DecidableEq

/-- The streamSid field of an outbound message. -/
def msgSid : OutMsg → String
  | OutMsg.media s _ => s
  | OutMsg.mark s _ => s

/-- Actions performed by handle_response, in program order: writes of the
is_speaking flag, the three external processing steps, websocket sends, and
a sleep vocabulary (a pacing suspension; the code never performs one). -/
inductive Act where
  | setSpeaking (b : Bool)
  | callSynthesis
  | collectChunks
  | transcode
  | send (m : OutMsg)
  | sleep (ms : Nat)
deriving DecidableEq

/-- How the sends of step 4 (main.py lines 102-127) behave in the ambient
environment: all succeed, the send of chunk k raises an Exception (caught by
the except on line 124), or the task is cancelled at the await of chunk k
(asyncio.CancelledError derives from BaseException, so the except Exception
clauses do not catch it and it propagates). -/
inductive SendOutcome where
  | ok
  | failAt (k : Nat)
  | cancelAt (k : Nat)
deriving DecidableEq

/-- True exactly for the cancellation outcome. -/
def isCancel : SendOutcome → Bool
  | SendOutcome.cancelAt _ => true
  | _ => false

/-- Environment of one handle_response invocation: outcomes of the
ElevenLabs call (line 56), the chunk collection (line 70) with the bytes it
yields, the pydub conversion (lines 85-93) with the mu-law bytes it yields,
and the behaviour of the sends. -/
structure RespEnv where
  synthOk : Bool
  collectOk : Bool
  mp3_data : List Nat
  transcodeOk : Bool
  output_bytes : List Nat
  send : SendOutcome
deriving DecidableEq

/-- How a handle_response invocation returned. -/
inductive RespResult where
  | skipped
  | aborted
  | completed
  | cancelled
deriving DecidableEq

/-- The send actions of the chunk loop, main.py lines 107-121. -/
def sendActs (stream_sid : String) (output_bytes : List Nat) : List Act :=
  (chunks output_bytes).map
    (fun c => Act.send (OutMsg.media stream_sid (b64encode c)))

/-- ConversationManager.handle_response (main.py lines 38-142) as a function
of the invocation environment. Returns the trace of actions in program
order, the final value of self.is_speaking, and how the call returned.
A send that raises is modelled as not appearing in the trace; on
cancellation the CancelledError propagates, so the final
self.is_speaking := False on line 141 is never reached and the flag stays
true. -/
def handle_response (stream_sid : String) (is_speaking : Bool) (env : RespEnv) :
    List Act × Bool × RespResult :=
  if is_speaking then ([], true, RespResult.skipped)
  else
    if env.synthOk = false then
      ([Act.setSpeaking true, Act.callSynthesis, Act.setSpeaking false],
       false, RespResult.aborted)
    else if env.collectOk = false then
      ([Act.setSpeaking true, Act.callSynthesis, Act.collectChunks, Act.setSpeaking false],
       false, RespResult.aborted)
    else if env.mp3_data.length = 0 then
      ([Act.setSpeaking true, Act.callSynthesis, Act.collectChunks, Act.setSpeaking false],
       false, RespResult.aborted)
    else if env.transcodeOk = false then
      ([Act.setSpeaking true, Act.callSynthesis, Act.collectChunks, Act.transcode,
        Act.setSpeaking false], false, RespResult.aborted)
    else
      match env.send with
      | SendOutcome.cancelAt k =>
          ([Act.setSpeaking true, Act.callSynthesis, Act.collectChunks, Act.transcode]
             ++ (sendActs stream_sid env.output_bytes).take k,
           true, RespResult.cancelled)
      | SendOutcome.failAt k =>
          ([Act.setSpeaking true, Act.callSynthesis, Act.collectChunks, Act.transcode]
             ++ (sendActs stream_sid env.output_bytes).take k ++ [Act.setSpeaking false],
           false, RespResult.aborted)
      | SendOutcome.ok =>
          ([Act.setSpeaking true, Act.callSynthesis, Act.collectChunks, Act.transcode]
             ++ sendActs stream_sid env.output_bytes
             ++ [Act.send (OutMsg.mark stream_sid "ai_speech_ended"), Act.setSpeaking false],
           false, RespResult.completed)

/-- The outbound message of a send action, if any. -/
def sendMsg : Act → Option OutMsg
  | Act.send m => some m
  | _ => none

/-- True for a sleep action. -/
def isSleep : Act → Bool
  | Act.sleep _ => true
  | _ => false

/-- True for a write of is_speaking := False. -/
def isSetSpeakingFalse : Act → Bool
  | Act.setSpeaking false => true
  | _ => false

/-- True for a send of a media message. -/
def isMediaSend : Act → Bool
  | Act.send (OutMsg.media _ _) => true
  | _ => false

/-- Walks a trace checking that between any two media sends there is a
sleep: the Bool state records whether a media send is still waiting for a
pacing suspension when the next media send arrives. -/
def pacedAux : Bool → List Act → Bool
  | _, [] => true
  | needSleep, a :: rest =>
      if isMediaSend a then
        if needSleep then false else pacedAux true rest
      else if isSleep a then pacedAux false rest
      else pacedAux needSleep rest

/-- A trace is paced when every media send after the first is separated from
its predecessor by at least one sleep action. -/
def pacedOK (tr : List Act) : Bool := pacedAux false tr

/-- No sleep action in a trace. -/
def noSleep (tr : List Act) : Bool := tr.all (fun a => !isSleep a)

/-- Exhaustive description of the possible returns of an accepted
handle_response invocation, one disjunct per exit path of the code. -/
theorem handle_response_cases (stream_sid : String) (env : RespEnv) :
    handle_response stream_sid false env
        = ([Act.setSpeaking true, Act.callSynthesis, Act.setSpeaking false],
           false, RespResult.aborted)
    ∨ handle_response stream_sid false env
        = ([Act.setSpeaking true, Act.callSynthesis, Act.collectChunks, Act.setSpeaking false],
           false, RespResult.aborted)
    ∨ handle_response stream_sid false env
        = ([Act.setSpeaking true, Act.callSynthesis, Act.collectChunks, Act.transcode,
            Act.setSpeaking false], false, RespResult.aborted)
    ∨ (∃ k, env.send = SendOutcome.cancelAt k ∧ handle_response stream_sid false env
        = ([Act.setSpeaking true, Act.callSynthesis, Act.collectChunks, Act.transcode]
             ++ (sendActs stream_sid env.output_bytes).take k,
           true, RespResult.cancelled))
    ∨ (∃ k, handle_response stream_sid false env
        = ([Act.setSpeaking true, Act.callSynthesis, Act.collectChunks, Act.transcode]
             ++ (sendActs stream_sid env.output_bytes).take k ++ [Act.setSpeaking false],
           false, RespResult.aborted))
    ∨ handle_response stream_sid false env
        = ([Act.setSpeaking true, Act.callSynthesis, Act.collectChunks, Act.transcode]
             ++ sendActs stream_sid env.output_bytes
             ++ [Act.send (OutMsg.mark stream_sid "ai_speech_ended"), Act.setSpeaking false],
           false, RespResult.completed) := by
  rcases env with ⟨so, co, mp, tc, ob, snd⟩
  cases so with
  | false => left; simp [handle_response]
  | true =>
      cases co with
      | false => right; left; simp [handle_response]
      | true =>
          by_cases hm : mp.length = 0
          · right; left; simp [handle_response, hm]
          · cases tc with
            | false => right; right; left; simp [handle_response, hm]
            | true =>
                cases snd with
                | cancelAt k =>
                    right; right; right; left
                    exact ⟨k, rfl, by simp [handle_response, hm]⟩
                | failAt k =>
                    right; right; right; right; left
                    exact ⟨k, by simp [handle_response, hm]⟩
                | ok =>
                    right; right; right; right; right
                    simp [handle_response, hm]

/-- One inbound websocket text message as seen by the receive loop of
websocket_endpoint (main.py lines 181-196) after json.loads: the event tag
and, for start/media, the relevant payload. badJson stands for a message on
which json.loads raises; startMalformed and mediaMalformed stand for
messages whose event tag is right but whose payload lookup
(data[\x27start\x27][\x27streamSid\x27], data[\x27media\x27][\x27payload\x27]) raises KeyError. -/
inductive InMsg where
  | connected
  | start (streamSid : String)
  | startMalformed
  | media (payload : List Nat)
  | mediaMalformed
  | stop
  | other (event : String)
  | badJson
deriving DecidableEq

/-- One event consumed by the per-call logic: an inbound websocket message,
or a final transcript delivered by the Deepgram on_message callback (main.py
lines 157-175) together with the environment of the handle_response it
triggers. -/
inductive CallEvent where
  | inbound (m : InMsg)
  | finalTranscript (text : String) (env : RespEnv)
deriving DecidableEq

/-- Per-call mutable state of websocket_endpoint: the stream_sid of the
ConversationManager created on the start event (none while
conversation_manager is None) and its is_speaking flag. -/
structure RouterState where
  stream_sid : Option String
  is_speaking : Bool
deriving DecidableEq

/-- conversation_manager = None, flag clear: state before any start event. -/
def initialState : RouterState := { stream_sid := none, is_speaking := false }

/-- How the receive loop ended: input list exhausted (call still live),
break on the stop event (line 196), or an uncaught exception from decoding
a message. Only WebSocketDisconnect is caught (line 198); json or KeyError
failures propagate out of the loop and end the handler. -/
inductive LoopExit where
  | drained
  | stopped
  | crashed
deriving DecidableEq

/-- Externally visible actions of the call: forwarding decoded audio to the
Deepgram connection (line 192), or sending an outbound message on the
websocket (from handle_response). -/
inductive RouterAct where
  | forward (audio : List Nat)
  | out (m : OutMsg)
deriving DecidableEq

/-- The outbound websocket messages among the actions of a handle_response
trace, as router actions. -/
def outActs (tr : List Act) : List RouterAct :=
  tr.filterMap (fun a =>
    match a with
    | Act.send m => some (RouterAct.out m)
    | _ => none)

/-- The receive loop of websocket_endpoint (main.py lines 181-196) run on a
list of call events. start replaces the ConversationManager (line 188);
media forwards the base64-decoded payload to Deepgram unconditionally
(line 192); stop breaks (line 196); a decode failure propagates (crashed);
a final transcript invokes handle_response when conversation_manager is not
None and the text is nonempty (lines 158-175). Returns the actions in
order, the final state, and how the loop ended. -/
def websocket_loop (st : RouterState) : List CallEvent → List RouterAct × RouterState × LoopExit
  | [] => ([], st, LoopExit.drained)
  | CallEvent.inbound InMsg.badJson :: _ => ([], st, LoopExit.crashed)
  | CallEvent.inbound InMsg.startMalformed :: _ => ([], st, LoopExit.crashed)
  | CallEvent.inbound InMsg.mediaMalformed :: _ => ([], st, LoopExit.crashed)
  | CallEvent.inbound InMsg.connected :: rest => websocket_loop st rest
  | CallEvent.inbound (InMsg.other _) :: rest => websocket_loop st rest
  | CallEvent.inbound (InMsg.start s) :: rest =>
      websocket_loop { stream_sid := some s, is_speaking := false } rest
  | CallEvent.inbound (InMsg.media p) :: rest =>
      let r := websocket_loop st rest
      (RouterAct.forward (b64decode p) :: r.1, r.2)
  | CallEvent.inbound InMsg.stop :: _ => ([], st, LoopExit.stopped)
  | CallEvent.finalTranscript t env :: rest =>
      match st.stream_sid with
      | none => websocket_loop st rest
      | some s =>
          if t = "" then websocket_loop st rest
          else
            let h := handle_response s st.is_speaking env
            let r := websocket_loop { stream_sid := some s, is_speaking := h.2.1 } rest
            (outActs h.1 ++ r.1, r.2)

/-- True for a start event. -/
def isStart : CallEvent → Bool
  | CallEvent.inbound (InMsg.start _) => true
  | _ => false

/-- Whether an event list contains a start event. -/
def hasStart (evs : List CallEvent) : Bool := evs.any isStart

/-- All outbound messages among the actions carry streamSid s. -/
def outsSidOK (s : String) (acts : List RouterAct) : Bool :=
  acts.all (fun a =>
    match a with
    | RouterAct.out m => msgSid m == s
    | _ => true)

/-- No outbound message among the actions. -/
def noOuts (acts : List RouterAct) : Bool :=
  acts.all (fun a =>
    match a with
    | RouterAct.out _ => false
    | _ => true)

/-- Audio segment as handled by pydub: sample rate, channel count, and the
number of frames (samples per channel). Models the pydub semantics used by
main.py lines 85-93: set_frame_rate resamples (preserving duration and the
channel count), and export(format="mulaw") emits one byte per sample per
channel. -/
structure AudioSegment where
  frame_rate : Nat
  channels : Nat
  frame_count : Nat
deriving DecidableEq

/-- AudioSegment.set_frame_rate: identity when the rate already matches,
otherwise resample to rate r keeping duration and channels. -/
def set_frame_rate (seg : AudioSegment) (r : Nat) : AudioSegment :=
  if seg.frame_rate = r then seg
  else { frame_rate := r, channels := seg.channels,
         frame_count := seg.frame_count * r / seg.frame_rate }

/-- Byte length of export(format="mulaw").read(): mu-law is 8 bits per
sample, channels interleaved, so one byte per sample per channel. -/
def export_mulaw_size (seg : AudioSegment) : Nat := seg.frame_count * seg.channels

/-- The pydub conversion of main.py lines 85-93: load the decoded segment,
set_frame_rate(8000), export as mu-law. No set_channels call occurs. -/
def pydub_transcode (seg : AudioSegment) : AudioSegment := set_frame_rate seg 8000

/-- Outcome of the OpenWeatherMap HTTP request made by get_weather
(vapi_agent.py lines 33-52): a successful response with its parsed fields,
an HTTP error status (raise_for_status), a body on which json parsing or
the key lookups raise, or any other exception. -/
inductive WeatherOutcome where
  | ok (temp : Int) (description : String)
  | httpError (status : Nat)
  | malformedBody
  | otherError
deriving DecidableEq

/-- DEFAULT_CITY from vapi_agent.py line 17. -/
def DEFAULT_CITY : String := "Singapore"

/-- get_weather (vapi_agent.py lines 21-52) as a function of whether
WEATHER_API_KEY is set, the requested city, and the HTTP outcome. Every
branch of the python function returns a string; no exception escapes
because the except clauses cover HTTPStatusError and Exception. -/
def get_weather (weather_api_key_set : Bool) (city : String) (o : WeatherOutcome) : String :=
  if weather_api_key_set = false then
    "I can\x27t fetch the weather right now; my API key is missing."
  else
    match o with
    | WeatherOutcome.ok temp description =>
        "The current weather in " ++ city ++ " is " ++ toString temp
          ++ " degrees Celsius with " ++ description ++ "."
    | WeatherOutcome.httpError status =>
        if status = 404 then
          "Sorry, I couldn\x27t find the city " ++ city ++ ". Please check the spelling."
        else "Sorry, I had a problem fetching the weather."
    | WeatherOutcome.malformedBody =>
        "Sorry, an unexpected error occurred while fetching the weather."
    | WeatherOutcome.otherError =>
        "Sorry, an unexpected error occurred while fetching the weather."

/-- The arguments of a getWeather function tool call as handled by
vapi_webhook (vapi_agent.py lines 82-88): empty arguments (falsy, so the
function is called with no keywords), a city keyword, keywords that do not
match the signature of get_weather (calling raises TypeError), or a string
argument payload on which json.loads raises. -/
inductive ArgsParse where
  | empty
  | cityArg (city : String)
  | unexpectedKeys
  | badJsonString
deriving DecidableEq

/-- One entry of the webhook response list: {toolCallId, result} on success
or {toolCallId, error} when executing the call raised (vapi_agent.py lines
90-100). -/
inductive ToolEntry where
  | result (toolCallId : String) (r : String)
  | error (toolCallId : String) (e : String)
deriving DecidableEq

/-- Processing of one getWeather function tool call by vapi_webhook (lines
73-100), given that the VAPI key check on line 70 passed: argument failures
are caught by the except on line 95 and produce an error entry; otherwise
get_weather runs and its string becomes the result entry. -/
def process_getWeather_call (weather_api_key_set : Bool) (toolCallId : String)
    (args : ArgsParse) (o : WeatherOutcome) : ToolEntry :=
  match args with
  | ArgsParse.badJsonString => ToolEntry.error toolCallId "JSONDecodeError"
  | ArgsParse.unexpectedKeys =>
      ToolEntry.error toolCallId "TypeError: unexpected keyword argument"
  | ArgsParse.empty =>
      ToolEntry.result toolCallId (get_weather weather_api_key_set DEFAULT_CITY o)
  | ArgsParse.cityArg c =>
      ToolEntry.result toolCallId (get_weather weather_api_key_set c o)

/-- Environment in which every external step succeeds and a three-byte
mu-law buffer is produced. -/
def okEnv : RespEnv :=
  { synthOk := true, collectOk := true, mp3_data := [1],
    transcodeOk := true, output_bytes := [0, 1, 2], send := SendOutcome.ok }

/-- Environment in which the task is cancelled at the first chunk send. -/
def cancelEnv : RespEnv :=
  { synthOk := true, collectOk := true, mp3_data := [1],
    transcodeOk := true, output_bytes := [0], send := SendOutcome.cancelAt 0 }

/-- Environment producing 2049 bytes of audio, hence two media frames. -/
def twoFrameEnv : RespEnv :=
  { synthOk := true, collectOk := true, mp3_data := [1],
    transcodeOk := true, output_bytes := List.replicate 2049 0, send := SendOutcome.ok }

/-- Every element of sendActs is a send action. -/
theorem sendActs_mem (stream_sid : String) (ob : List Nat) (a : Act)
    (h : a ∈ sendActs stream_sid ob) : ∃ m, a = Act.send m := by
  rcases List.mem_map.mp h with ⟨c, _, heq⟩
  exact ⟨OutMsg.media stream_sid (b64encode c), heq.symm⟩

/-- Every send action in sendActs carries the given streamSid. -/
theorem sendActs_sid (stream_sid : String) (ob : List Nat) (m : OutMsg)
    (h : Act.send m ∈ sendActs stream_sid ob) : msgSid m = stream_sid := by
  rcases List.mem_map.mp h with ⟨c, _, heq⟩
  injection heq with h1
  subst h1
  rfl

/-- Characterization of the actions a handle_response trace can contain. -/
theorem handle_response_mem (stream_sid : String) (spk : Bool) (env : RespEnv) (a : Act)
    (ha : a ∈ (handle_response stream_sid spk env).1) :
    a = Act.setSpeaking true ∨ a = Act.setSpeaking false ∨ a = Act.callSynthesis
      ∨ a = Act.collectChunks ∨ a = Act.transcode ∨ ∃ m, a = Act.send m := by
  cases spk with
  | true => simp [handle_response] at ha
  | false =>
      rcases handle_response_cases stream_sid env with h | h | h | ⟨k, _, h⟩ | ⟨k, h⟩ | h <;>
        rw [h] at ha <;> simp only [List.mem_append, List.mem_cons,
          List.not_mem_nil, or_false] at ha
      · tauto
      · tauto
      · tauto
      · rcases ha with ha | hx
        · tauto
        · exact Or.inr (Or.inr (Or.inr (Or.inr (Or.inr
            (sendActs_mem _ _ _ (List.take_subset _ _ hx))))))
      · rcases ha with (ha | hx) | ha
        · tauto
        · exact Or.inr (Or.inr (Or.inr (Or.inr (Or.inr
            (sendActs_mem _ _ _ (List.take_subset _ _ hx))))))
        · tauto
      · rcases ha with (ha | hx) | hmk | ha
        · tauto
        · exact Or.inr (Or.inr (Or.inr (Or.inr (Or.inr (sendActs_mem _ _ _ hx)))))
        · exact Or.inr (Or.inr (Or.inr (Or.inr (Or.inr ⟨_, hmk⟩))))
        · tauto

/-- Every outbound message sent by handle_response carries the streamSid of
the session it was invoked on. -/
theorem handle_response_send_sid (stream_sid : String) (spk : Bool) (env : RespEnv)
    (m : OutMsg) (hm : Act.send m ∈ (handle_response stream_sid spk env).1) :
    msgSid m = stream_sid := by
  cases spk with
  | true => simp [handle_response] at hm
  | false =>
      rcases handle_response_cases stream_sid env with h | h | h | ⟨k, _, h⟩ | ⟨k, h⟩ | h <;>
        rw [h] at hm <;> simp only [List.mem_append, List.mem_cons,
          List.not_mem_nil, or_false] at hm
      · simp at hm
      · simp at hm
      · simp at hm
      · rcases hm with hm | hx
        · simp at hm
        · exact sendActs_sid _ _ _ (List.take_subset _ _ hx)
      · rcases hm with (hm | hx) | hm
        · simp at hm
        · exact sendActs_sid _ _ _ (List.take_subset _ _ hx)
        · simp at hm
      · rcases hm with (hm | hx) | hmk | hm
        · simp at hm
        · exact sendActs_sid _ _ _ hx
        · injection hmk with h1
          subst h1
          rfl
        · simp at hm

/-- An outbound router action extracted from a trace comes from a send. -/
theorem outActs_mem : ∀ (tr : List Act) (m : OutMsg),
    RouterAct.out m ∈ outActs tr → Act.send m ∈ tr := by
  intro tr
  induction tr with
  | nil => intro m h; simp [outActs] at h
  | cons a rest ih =>
      intro m h
      cases a with
      | send m2 =>
          simp only [outActs, List.filterMap_cons] at h
          rcases List.mem_cons.mp h with h1 | h1
          · injection h1 with h2
            subst h2
            exact List.mem_cons_self _ _
          · exact List.mem_cons_of_mem _ (ih m h1)
      | setSpeaking b =>
          simp only [outActs, List.filterMap_cons] at h
          exact List.mem_cons_of_mem _ (ih m h)
      | callSynthesis =>
          simp only [outActs, List.filterMap_cons] at h
          exact List.mem_cons_of_mem _ (ih m h)
      | collectChunks =>
          simp only [outActs, List.filterMap_cons] at h
          exact List.mem_cons_of_mem _ (ih m h)
      | transcode =>
          simp only [outActs, List.filterMap_cons] at h
          exact List.mem_cons_of_mem _ (ih m h)
      | sleep n =>
          simp only [outActs, List.filterMap_cons] at h
          exact List.mem_cons_of_mem _ (ih m h)

/-- Before any start event the loop emits no outbound message and leaves
the state unchanged: conversation_manager is still None. -/
theorem websocket_loop_pre : ∀ (evs : List CallEvent) (b : Bool), hasStart evs = false →
    (∀ m, RouterAct.out m ∉ (websocket_loop ⟨none, b⟩ evs).1)
      ∧ (websocket_loop ⟨none, b⟩ evs).2.1 = ⟨none, b⟩ := by
  intro evs
  induction evs with
  | nil => intro b _; simp [websocket_loop]
  | cons e rest ih =>
      intro b h
      have hs : isStart e = false ∧ hasStart rest = false := by
        simpa [hasStart, List.any_cons, Bool.or_eq_false_iff] using h
      cases e with
      | inbound im =>
          cases im with
          | connected => simpa [websocket_loop] using ih b hs.2
          | start s => simp [isStart] at hs
          | startMalformed => simp [websocket_loop]
          | media p =>
              have := ih b hs.2
              constructor
              · intro m hm
                rcases List.mem_cons.mp hm with h1 | h1
                · exact RouterAct.noConfusion h1
                · exact this.1 m h1
              · exact this.2
          | mediaMalformed => simp [websocket_loop]
          | stop => simp [websocket_loop]
          | other ev => simpa [websocket_loop] using ih b hs.2
          | badJson => simp [websocket_loop]
      | finalTranscript t env => simpa [websocket_loop] using ih b hs.2

/-- After the ConversationManager for streamSid s exists, as long as no
further start event arrives every outbound message carries streamSid s. -/
theorem websocket_loop_post (s : String) : ∀ (evs : List CallEvent) (b : Bool),
    hasStart evs = false →
    ∀ m, RouterAct.out m ∈ (websocket_loop ⟨some s, b⟩ evs).1 → msgSid m = s := by
  intro evs
  induction evs with
  | nil => intro b _ m hm; simp [websocket_loop] at hm
  | cons e rest ih =>
      intro b h m hm
      have hs : isStart e = false ∧ hasStart rest = false := by
        simpa [hasStart, List.any_cons, Bool.or_eq_false_iff] using h
      cases e with
      | inbound im =>
          cases im with
          | connected =>
              exact ih b hs.2 m (by simpa [websocket_loop] using hm)
          | start s2 => simp [isStart] at hs
          | startMalformed => simp [websocket_loop] at hm
          | media p =>
              exact ih b hs.2 m (by simpa [websocket_loop] using hm)
          | mediaMalformed => simp [websocket_loop] at hm
          | stop => simp [websocket_loop] at hm
          | other ev =>
              exact ih b hs.2 m (by simpa [websocket_loop] using hm)
          | badJson => simp [websocket_loop] at hm
      | finalTranscript t env =>
          by_cases ht : t = ""
          · exact ih b hs.2 m (by simpa [websocket_loop, ht] using hm)
          · have hm2 : RouterAct.out m ∈
                outActs (handle_response s b env).1
                  ++ (websocket_loop ⟨some s, (handle_response s b env).2.1⟩ rest).1 := by
              simpa [websocket_loop, ht] using hm
            rcases List.mem_append.mp hm2 with h1 | h1
            · exact handle_response_send_sid s b env m (outActs_mem _ m h1)
            · exact ih (handle_response s b env).2.1 hs.2 m h1

/-- No action of a truncated send sequence is a write of is_speaking. -/
theorem countP_sendActs_take (stream_sid : String) (ob : List Nat) (k : Nat) :
    ((sendActs stream_sid ob).take k).countP isSetSpeakingFalse = 0 := by
  apply List.countP_eq_zero.mpr
  intro a ha
  rcases sendActs_mem _ _ _ (List.take_subset _ _ ha) with ⟨m, rfl⟩
  simp [isSetSpeakingFalse]

/-- No action of the send sequence is a write of is_speaking. -/
theorem countP_sendActs (stream_sid : String) (ob : List Nat) :
    (sendActs stream_sid ob).countP isSetSpeakingFalse = 0 := by
  apply List.countP_eq_zero.mpr
  intro a ha
  rcases sendActs_mem _ _ _ ha with ⟨m, rfl⟩
  simp [isSetSpeakingFalse]

/-- The outbound messages of the send sequence, in order. -/
theorem filterMap_sendActs (stream_sid : String) (ob : List Nat) :
    (sendActs stream_sid ob).filterMap sendMsg
      = (chunks ob).map (fun c => OutMsg.media stream_sid (b64encode c)) := by
  rw [sendActs]
  generalize chunks ob = l
  induction l with
  | nil => rfl
  | cons c t ih => simp [List.filterMap_cons, sendMsg, ih]

/-- Claim C1 counterexample: at a concrete environment where the task is
cancelled at the first chunk send, the accepted invocation ends by
cancellation and is_speaking remains true — the flag is not restored on the
cancellation exit path, because handle_response has no finally block and
except Exception does not catch asyncio.CancelledError. -/
theorem respond_cancel_leaves_speaking_true :
    (handle_response "MZ" false cancelEnv).2.1 = true
      ∧ (handle_response "MZ" false cancelEnv).2.2 = RespResult.cancelled := by decide

/-- Claim C1 (amended): if is_speaking is already true the call returns
immediately with no send and no state change; otherwise is_speaking is set
to true before any external step, and on every exit path the code handles —
success and every caught downstream failure (synthesis error, collect
error, empty audio, transcode error, media send error) — the flag is
written back to false exactly once and ends false. Cancellation mid-stream
is excluded: there the CancelledError propagates and the flag stays true. -/
theorem respond_speaking_contract (stream_sid : String) (env : RespEnv)
    (h : isCancel env.send = false) :
    handle_response stream_sid true env = ([], true, RespResult.skipped)
    ∧ (handle_response stream_sid false env).1.head? = some (Act.setSpeaking true)
    ∧ (handle_response stream_sid false env).2.1 = false
    ∧ (handle_response stream_sid false env).1.countP isSetSpeakingFalse = 1 := by
  refine ⟨by simp [handle_response], ?_⟩
  rcases handle_response_cases stream_sid env with h1 | h1 | h1 | ⟨k, hk, h1⟩ | ⟨k, h1⟩ | h1
  · rw [h1]; exact ⟨rfl, rfl, by decide⟩
  · rw [h1]; exact ⟨rfl, rfl, by decide⟩
  · rw [h1]; exact ⟨rfl, rfl, by decide⟩
  · rw [hk] at h; simp [isCancel] at h
  · rw [h1]
    refine ⟨rfl, rfl, ?_⟩
    simp only [List.countP_append, countP_sendActs_take]
    decide
  · rw [h1]
    refine ⟨rfl, rfl, ?_⟩
    simp only [List.countP_append, countP_sendActs]
    simp [List.countP_cons, isSetSpeakingFalse]

/-- Claim C1 witness: the contract instantiated at a concrete environment
in which every step succeeds. -/
theorem respond_speaking_contract_witness :
    isCancel okEnv.send = false
    ∧ (handle_response "MZ" true okEnv = ([], true, RespResult.skipped)
      ∧ (handle_response "MZ" false okEnv).1.head? = some (Act.setSpeaking true)
      ∧ (handle_response "MZ" false okEnv).2.1 = false
      ∧ (handle_response "MZ" false okEnv).1.countP isSetSpeakingFalse = 1) :=
  ⟨by decide, respond_speaking_contract "MZ" okEnv (by decide)⟩

/-- Claim C2: for a byte buffer handed to the chunk loop with the frame
size 2048 hard-coded in the source, the number of emitted frames is
ceil(N/2048), every frame has at most 2048 bytes, every frame but the last
has exactly 2048 bytes, and base64-decoding the emitted payloads and
concatenating them in emission order reconstitutes the buffer exactly. -/
theorem pacer_chunks_spec (buf : List Nat) (h : ∀ b ∈ buf, b < 256) :
    (chunks buf).length = (buf.length + chunk_size - 1) / chunk_size
    ∧ (∀ f ∈ chunks buf, f.length ≤ chunk_size)
    ∧ (∀ i, i + 1 < (chunks buf).length → ((chunks buf).getD i []).length = chunk_size)
    ∧ ((chunks buf).map (fun f => b64decode (b64encode f))).join = buf := by
  refine ⟨chunks_length buf, chunks_le buf, chunks_full buf, ?_⟩
  rw [map_id_of (chunks buf) _
    (fun f hf => b64_roundtrip f (fun b hb => h b (chunks_mem buf f hf b hb)))]
  exact chunks_join buf

/-- Claim C2 witness: the pacer specification instantiated at the concrete
buffer of bytes 0, 1, 2. -/
theorem pacer_chunks_spec_witness :
    (∀ b ∈ ([0, 1, 2] : List Nat), b < 256)
    ∧ ((chunks [0, 1, 2]).length
          = (([0, 1, 2] : List Nat).length + chunk_size - 1) / chunk_size
      ∧ (∀ f ∈ chunks [0, 1, 2], f.length ≤ chunk_size)
      ∧ (∀ i, i + 1 < (chunks [0, 1, 2]).length
            → ((chunks [0, 1, 2]).getD i []).length = chunk_size)
      ∧ ((chunks [0, 1, 2]).map (fun f => b64decode (b64encode f))).join = [0, 1, 2]) :=
  ⟨by decide, pacer_chunks_spec [0, 1, 2] (by decide)⟩

/-- Claim C3 counterexample: after a start event and a handle_response that
was cancelled mid-send, the session is left with is_speaking = true, yet a
media frame arriving in that state is still forwarded to the recognition
channel — the code has no barge-in suppression. -/
theorem media_forwarded_while_speaking :
    (websocket_loop initialState
        [CallEvent.inbound (InMsg.start "MZ"),
         CallEvent.finalTranscript "hi" cancelEnv]).2.1
      = { stream_sid := some "MZ", is_speaking := true }
    ∧ RouterAct.forward (b64decode [65, 65, 61, 61]) ∈
        (websocket_loop initialState
          [CallEvent.inbound (InMsg.start "MZ"),
           CallEvent.finalTranscript "hi" cancelEnv,
           CallEvent.inbound (InMsg.media [65, 65, 61, 61])]).1 := by decide

/-- Claim C3 (amended): in the code as written the forwarding of inbound
media to the recognition channel is unconditional: for every session state,
including is_speaking = true, a media event forwards its base64-decoded
payload to the Deepgram connection. -/
theorem media_forward_unconditional (st : RouterState) (p : List Nat)
    (rest : List CallEvent) :
    (websocket_loop st (CallEvent.inbound (InMsg.media p) :: rest)).1
      = RouterAct.forward (b64decode p) :: (websocket_loop st rest).1 := rfl

/-- Claim C4 counterexample: an accepted response whose transcoded audio
fills two frames sends the two media frames with no suspension between
them: the pacing check fails on the trace. -/
theorem pacer_not_paced_on_two_frames :
    pacedOK (handle_response "MZ" false twoFrameEnv).1 = false := by
  have htr : (handle_response "MZ" false twoFrameEnv).1
      = [Act.setSpeaking true, Act.callSynthesis, Act.collectChunks, Act.transcode]
        ++ sendActs "MZ" (List.replicate 2049 0)
        ++ [Act.send (OutMsg.mark "MZ" "ai_speech_ended"), Act.setSpeaking false] := rfl
  have hchunks : chunks (List.replicate 2049 (0 : Nat))
      = [(List.replicate 2049 (0 : Nat)).take chunk_size,
         ((List.replicate 2049 (0 : Nat)).drop chunk_size).take chunk_size] := by
    rw [chunks, List.length_replicate]
    have hq : (2049 + chunk_size - 1) / chunk_size = 2 := by decide
    rw [hq, show List.range 2 = [0, 1] from rfl]
    simp only [List.map_cons, List.map_nil, Nat.mul_zero, Nat.mul_one, List.drop_zero]
  have hs : sendActs "MZ" (List.replicate 2049 0)
      = [Act.send (OutMsg.media "MZ"
           (b64encode ((List.replicate 2049 (0 : Nat)).take chunk_size))),
         Act.send (OutMsg.media "MZ"
           (b64encode (((List.replicate 2049 (0 : Nat)).drop chunk_size).take chunk_size)))] := by
    rw [sendActs, hchunks]
    simp only [List.map_cons, List.map_nil]
  rw [htr, hs]
  simp only [List.cons_append, List.nil_append]
  simp [pacedOK, pacedAux, isMediaSend, isSleep]

/-- Claim C4 (amended): the chunk loop of handle_response contains no sleep
at all: no trace of any invocation contains a sleep action, so consecutive
media frames are sent back-to-back with no pacing interval. -/
theorem pacer_never_sleeps (stream_sid : String) (spk : Bool) (env : RespEnv) :
    noSleep (handle_response stream_sid spk env).1 = true := by
  rw [noSleep, List.all_eq_true]
  intro a ha
  rcases handle_response_mem stream_sid spk env a ha with h | h | h | h | h | ⟨m, h⟩ <;>
    subst h <;> rfl

/-- Claim C5 counterexample: a message on which decoding raises terminates
the receive loop with a propagating exception; the following media message
is never processed. The loop does not skip the message and continue. -/
theorem malformed_message_terminates_loop :
    websocket_loop initialState
        [CallEvent.inbound InMsg.badJson, CallEvent.inbound (InMsg.media [65, 65, 61, 61])]
      = ([], initialState, LoopExit.crashed) := by decide

/-- Claim C5 (amended): every decode failure of a single inbound message —
json.loads raising, a start message missing its streamSid, a media message
missing its payload — is fatal to the receive loop: the exception
propagates (only WebSocketDisconnect is caught) and no further message is
processed. -/
theorem decode_failure_crashes_loop (st : RouterState) (rest : List CallEvent) :
    websocket_loop st (CallEvent.inbound InMsg.badJson :: rest)
        = ([], st, LoopExit.crashed)
    ∧ websocket_loop st (CallEvent.inbound InMsg.startMalformed :: rest)
        = ([], st, LoopExit.crashed)
    ∧ websocket_loop st (CallEvent.inbound InMsg.mediaMalformed :: rest)
        = ([], st, LoopExit.crashed) :=
  ⟨rfl, rfl, rfl⟩

/-- Claim C6 counterexample: the conversion step never calls set_channels,
so a stereo synthesis result is still stereo after set_frame_rate(8000) and
mu-law export — the output is not mono. -/
theorem transcode_stereo_not_mono :
    ¬ (pydub_transcode { frame_rate := 44100, channels := 2, frame_count := 44100 }).channels
        = 1 := by decide

/-- Claim C6 (amended): the conversion step resamples to exactly 8000 Hz
and re-encodes to mu-law, but preserves the channel count of the source
instead of down-mixing to mono; the exported byte count is duration times
8000 times the channel count. -/
theorem transcode_rate_and_channels (seg : AudioSegment) :
    (pydub_transcode seg).frame_rate = 8000
    ∧ (pydub_transcode seg).channels = seg.channels
    ∧ export_mulaw_size (pydub_transcode seg)
        = seg.frame_count * 8000 / seg.frame_rate * seg.channels := by
  by_cases h : seg.frame_rate = 8000
  · rw [pydub_transcode, set_frame_rate, if_pos h]
    refine ⟨h, rfl, ?_⟩
    rw [export_mulaw_size, h]
    have hdc : seg.frame_count * 8000 / 8000 = seg.frame_count := by omega
    rw [hdc]
  · rw [pydub_transcode, set_frame_rate, if_neg h]
    exact ⟨rfl, rfl, rfl⟩

/-- Claim C7 counterexample: a media frame received before any start event
(conversation_manager is still None, the session is not yet Active) is
forwarded to the recognition channel anyway — the Deepgram connection is
opened before the loop and the media branch does not check for a session. -/
theorem media_forwarded_before_start :
    (websocket_loop initialState [CallEvent.inbound (InMsg.media [65, 65, 61, 61])]).1
      = [RouterAct.forward [0]] := by decide

/-- Claim C7 (amended): media frames are forwarded to recognition whether
or not a start event has been observed; only the second half of the claim
holds: after the stop event the loop exits, so no later message of the
input is processed and no further frame is forwarded. -/
theorem media_forward_lifecycle (p : List Nat) (rest : List CallEvent)
    (st : RouterState) :
    (websocket_loop initialState (CallEvent.inbound (InMsg.media p) :: rest)).1
      = RouterAct.forward (b64decode p) :: (websocket_loop initialState rest).1
    ∧ websocket_loop st (CallEvent.inbound InMsg.stop :: rest)
        = ([], st, LoopExit.stopped) :=
  ⟨rfl, rfl⟩

/-- Claim C8: an accepted handle_response invocation that completes its
frame deliveries sends exactly one mark message — event mark with
streamSid and mark.name = "ai_speech_ended" — and sends it after all of
the media frames of the response. -/
theorem mark_sent_once_after_media (stream_sid : String) (env : RespEnv)
    (h : (handle_response stream_sid false env).2.2 = RespResult.completed) :
    (handle_response stream_sid false env).1.filterMap sendMsg
      = (chunks env.output_bytes).map (fun c => OutMsg.media stream_sid (b64encode c))
        ++ [OutMsg.mark stream_sid "ai_speech_ended"] := by
  rcases handle_response_cases stream_sid env with h1 | h1 | h1 | ⟨k, _, h1⟩ | ⟨k, h1⟩ | h1 <;>
    rw [h1] at h ⊢
  · simp at h
  · simp at h
  · simp at h
  · simp at h
  · simp at h
  · simp [List.filterMap_append, filterMap_sendActs, List.filterMap_cons, sendMsg]

/-- Claim C8 witness: the mark property instantiated at a concrete
successful environment with a three-byte buffer. -/
theorem mark_sent_once_after_media_witness :
    (handle_response "MZ" false okEnv).2.2 = RespResult.completed
    ∧ (handle_response "MZ" false okEnv).1.filterMap sendMsg
        = (chunks okEnv.output_bytes).map (fun c => OutMsg.media "MZ" (b64encode c))
          ++ [OutMsg.mark "MZ" "ai_speech_ended"] :=
  ⟨by decide, mark_sent_once_after_media "MZ" okEnv (by decide)⟩

/-- Helper for C9: with the session for streamSid s in place and no further
start event, every outbound message of the rest of the call carries s. -/
theorem outs_sid_aux (s : String) (post : List CallEvent) (h2 : hasStart post = false) :
    ∀ pre : List CallEvent, hasStart pre = false →
    ∀ m, RouterAct.out m ∈ (websocket_loop initialState
        (pre ++ CallEvent.inbound (InMsg.start s) :: post)).1 → msgSid m = s := by
  intro pre
  induction pre with
  | nil =>
      intro _ m hm
      exact websocket_loop_post s post false h2 m (by simpa [websocket_loop] using hm)
  | cons e rest ih =>
      intro h1 m hm
      have hs : isStart e = false ∧ hasStart rest = false := by
        simpa [hasStart, List.any_cons, Bool.or_eq_false_iff] using h1
      cases e with
      | inbound im =>
          cases im with
          | connected =>
              exact ih hs.2 m (by simpa [List.cons_append, websocket_loop] using hm)
          | start s2 => simp [isStart] at hs
          | startMalformed => simp [List.cons_append, websocket_loop] at hm
          | media p =>
              exact ih hs.2 m (by simpa [List.cons_append, websocket_loop] using hm)
          | mediaMalformed => simp [List.cons_append, websocket_loop] at hm
          | stop => simp [List.cons_append, websocket_loop] at hm
          | other ev =>
              exact ih hs.2 m (by simpa [List.cons_append, websocket_loop] using hm)
          | badJson => simp [List.cons_append, websocket_loop] at hm
      | finalTranscript t env =>
          exact ih hs.2 m
            (by simpa [List.cons_append, websocket_loop, initialState] using hm)

/-- Claim C9: in a call whose event sequence contains exactly one start
event, carrying streamSid s, every outbound message (media or mark) carries
that same s — the stream identifier fixed when the ConversationManager was
created — and a call that has seen no start event emits no outbound
message at all. -/
theorem outbound_sid_from_start (pre post : List CallEvent) (s : String)
    (h1 : hasStart pre = false) (h2 : hasStart post = false) :
    outsSidOK s (websocket_loop initialState
        (pre ++ CallEvent.inbound (InMsg.start s) :: post)).1 = true
    ∧ noOuts (websocket_loop initialState pre).1 = true := by
  constructor
  · rw [outsSidOK, List.all_eq_true]
    intro a ha
    cases a with
    | forward audio => rfl
    | out m =>
        have hsid := outs_sid_aux s post h2 pre h1 m ha
        simp [hsid]
  · rw [noOuts, List.all_eq_true]
    intro a ha
    cases a with
    | forward audio => rfl
    | out m => exact absurd ha ((websocket_loop_pre pre false h1).1 m)

/-- Claim C9 witness: the streamSid property instantiated at the concrete
call consisting of a start with sid MZ followed by one final transcript. -/
theorem outbound_sid_from_start_witness :
    hasStart ([] : List CallEvent) = false
    ∧ hasStart [CallEvent.finalTranscript "hi" okEnv] = false
    ∧ (outsSidOK "MZ" (websocket_loop initialState
          (([] : List CallEvent) ++ CallEvent.inbound (InMsg.start "MZ")
            :: [CallEvent.finalTranscript "hi" okEnv])).1 = true
      ∧ noOuts (websocket_loop initialState ([] : List CallEvent)).1 = true) :=
  ⟨by decide, by decide,
    outbound_sid_from_start [] [CallEvent.finalTranscript "hi" okEnv] "MZ"
      (by decide) (by decide)⟩

/-- Claim C10 counterexample: a getWeather tool call whose arguments do not
match the signature of get_weather — here a keyword other than city —
raises TypeError inside the webhook loop and produces an error entry, not a
result entry, even though get_weather itself never raises. -/
theorem weather_bad_args_error_entry :
    process_getWeather_call true "call1" ArgsParse.unexpectedKeys
        (WeatherOutcome.ok 20 "clear sky")
      = ToolEntry.error "call1" "TypeError: unexpected keyword argument" := rfl

/-- Claim C10 (amended): get_weather returns a nonempty sentence for every
city and every outcome — missing WEATHER_API_KEY, HTTP error including 404,
malformed body, or any other exception — and never raises, so a getWeather
tool call whose arguments are well-formed (empty or a city keyword) always
yields a result entry; only malformed arguments (a string that fails
json.loads or unexpected keywords) yield an error entry instead. -/
theorem weather_tool_entries (k : Bool) (callId city : String) (o : WeatherOutcome) :
    process_getWeather_call k callId ArgsParse.empty o
        = ToolEntry.result callId (get_weather k DEFAULT_CITY o)
    ∧ process_getWeather_call k callId (ArgsParse.cityArg city) o
        = ToolEntry.result callId (get_weather k city o)
    ∧ process_getWeather_call k callId ArgsParse.badJsonString o
        = ToolEntry.error callId "JSONDecodeError"
    ∧ process_getWeather_call k callId ArgsParse.unexpectedKeys o
        = ToolEntry.error callId "TypeError: unexpected keyword argument"
    ∧ get_weather k city o ≠ "" := by
  refine ⟨rfl, rfl, rfl, rfl, ?_⟩
  cases k with
  | false =>
      intro hx
      have h0 : get_weather false city o
          = "I can\x27t fetch the weather right now; my API key is missing." := rfl
      rw [h0] at hx
      exact absurd hx (by decide)
  | true =>
      cases o with
      | ok temp description =>
          intro hx
          have h0 : get_weather true city (WeatherOutcome.ok temp description)
              = "The current weather in " ++ city ++ " is " ++ toString temp
                ++ " degrees Celsius with " ++ description ++ "." := rfl
          rw [h0] at hx
          have hlen := congrArg String.length hx
          simp only [String.length_append] at hlen
          have hp : 0 < ("The current weather in ").length := by decide
          have hz : ("" : String).length = 0 := rfl
          rw [hz] at hlen
          omega
      | httpError status =>
          intro hx
          have h0 : get_weather true city (WeatherOutcome.httpError status)
              = (if status = 404
                  then "Sorry, I couldn\x27t find the city " ++ city
                    ++ ". Please check the spelling."
                  else "Sorry, I had a problem fetching the weather.") := rfl
          rw [h0] at hx
          by_cases hst : status = 404
          · rw [if_pos hst] at hx
            have hlen := congrArg String.length hx
            simp only [String.length_append] at hlen
            have hp : 0 < ("Sorry, I couldn\x27t find the city ").length := by decide
            have hz : ("" : String).length = 0 := rfl
            rw [hz] at hlen
            omega
          · rw [if_neg hst] at hx
            exact absurd hx (by decide)
      | malformedBody =>
          intro hx
          have h0 : get_weather true city WeatherOutcome.malformedBody
              = "Sorry, an unexpected error occurred while fetching the weather." := rfl
          rw [h0] at hx
          exact absurd hx (by decide)
      | otherError =>
          intro hx
          have h0 : get_weather true city WeatherOutcome.otherError
              = "Sorry, an unexpected error occurred while fetching the weather." := rfl
          rw [h0] at hx
          exact absurd hx (by decide)
